import Mathlib

/-!
Shallow embedding of the secure-gateway protocol translator
(razizian/secure-gateway-rust) and proofs about its claims.

Bytes are modelled as `Nat` values (< 256 on the wire); 16/32-bit machine
integers are `Nat` with explicit `% 2^w` where the source truncates.
Wall-clock reads (`SystemTime::now()`) are made explicit by threading a
`now` argument through the functions that stamp timestamps or check key
expiry.  Random draws (nonces) are likewise explicit arguments.
Fallible operations return `Except GatewayError`.
-/

deriving instance DecidableEq for Except

namespace SecureGateway

/-- Error taxonomy of the gateway (anyhow/thiserror messages are elided;
only the kind of each error matters to the properties proved here). -/
inductive GatewayError where
  | parseError
  | invalidRoute
  | noRoute
  | noTransform
  | keyError
  | encryptionFailed
  | decryptionFailed
  | authenticationFailed
deriving DecidableEq, Repr

/-- Big-endian serialization of a 16-bit word (`put_u16`). -/
def u16be (n : Nat) : List Nat := [n / 256 % 256, n % 256]

/-- Big-endian serialization of a 32-bit word (`put_u32`). -/
def u32be (n : Nat) : List Nat :=
  [n / 2 ^ 24 % 256, n / 2 ^ 16 % 256, n / 2 ^ 8 % 256, n % 256]

/-- `src/protocols/mod.rs`: the two supported protocols. -/
inductive ProtocolType where
  | milStd1553
  | ethernetIp
deriving DecidableEq, Repr

/-- `src/protocols/mod.rs`: `MessageMetadata`. -/
structure MessageMetadata where
  source_address : String
  destination_address : String
  timestamp : Nat
  message_id : Nat
  is_command : Bool
  requires_response : Bool
deriving DecidableEq, Repr

/-- `src/protocols/mod.rs`: `CommonMessage`, the normalized form. -/
structure CommonMessage where
  source_protocol : ProtocolType
  target_protocol : Option ProtocolType
  priority : Nat
  payload : List Nat
  metadata : MessageMetadata
deriving DecidableEq, Repr

/-! ## EtherNet/IP codec (`src/protocols/ethernet_ip/`) -/

/-- `ethernet_ip/mod.rs`: `CommandType`. -/
inductive CommandType where
  | listIdentity
  | listServices
  | listInterfaces
  | registerSession
  | unregisterSession
  | sendRRData
  | sendUnitData
  | dataRequest
  | dataResponse
  | custom (value : Nat)
deriving DecidableEq, Repr

/-- `CommandType::from_u8`. -/
def CommandType.from_u8 (value : Nat) : CommandType :=
  if value = 0x63 then .listIdentity
  else if value = 0x64 then .listServices
  else if value = 0x65 then .listInterfaces
  else if value = 0x66 then .registerSession
  else if value = 0x67 then .unregisterSession
  else if value = 0x6F then .sendRRData
  else if value = 0x70 then .sendUnitData
  else if value = 0x0A then .dataRequest
  else if value = 0x0B then .dataResponse
  else .custom value

/-- `CommandType::as_u8`. -/
def CommandType.as_u8 : CommandType → Nat
  | .listIdentity => 0x63
  | .listServices => 0x64
  | .listInterfaces => 0x65
  | .registerSession => 0x66
  | .unregisterSession => 0x67
  | .sendRRData => 0x6F
  | .sendUnitData => 0x70
  | .dataRequest => 0x0A
  | .dataResponse => 0x0B
  | .custom value => value

/-- `ethernet_ip/mod.rs`: `EthernetIpPacket`.  `sender_context` models the
`[u8; 8]` array as a list (well-formed packets have length 8). -/
structure EthernetIpPacket where
  command : CommandType
  session_handle : Nat
  status : Nat
  sender_context : List Nat
  options : Nat
  data : List Nat
  timestamp : Nat
  source_address : String
  destination_address : String
deriving DecidableEq, Repr

/-- `EthernetIpPacket::to_bytes`: 24-byte header followed by the payload.
The length field is `(24 + data.len()) as u16`, hence the `% 2^16`. -/
def EthernetIpPacket.to_bytes (p : EthernetIpPacket) : List Nat :=
  p.command.as_u8 :: 0 :: u16be ((24 + p.data.length) % 2 ^ 16) ++
  u32be p.session_handle ++ u32be p.status ++
  p.sender_context ++ u32be p.options ++ p.data

/-- `EthernetIpPacket::generate_message_id`:
`(timestamp << 32) | session_handle` on `u64`. -/
def EthernetIpPacket.generate_message_id (p : EthernetIpPacket) : Nat :=
  Nat.lor (p.timestamp * 2 ^ 32 % 2 ^ 64) p.session_handle

/-- `ethernet_ip/parser.rs`: `parse_ethernet_ip`.  Requires 24 header
bytes; the length field is read but only logged on mismatch.  The
constructed packet is stamped with the current wall time (`now`) and
placeholder peer addresses, exactly as in the source. -/
def parse_ethernet_ip (now : Nat) (data : List Nat) :
    Except GatewayError EthernetIpPacket :=
  match data with
  | c :: _reserved :: _l1 :: _l2 ::
    s1 :: s2 :: s3 :: s4 ::
    t1 :: t2 :: t3 :: t4 ::
    x1 :: x2 :: x3 :: x4 :: x5 :: x6 :: x7 :: x8 ::
    o1 :: o2 :: o3 :: o4 :: rest =>
      Except.ok
        { command := CommandType.from_u8 c
          session_handle := s1 * 2 ^ 24 + s2 * 2 ^ 16 + s3 * 2 ^ 8 + s4
          status := t1 * 2 ^ 24 + t2 * 2 ^ 16 + t3 * 2 ^ 8 + t4
          sender_context := [x1, x2, x3, x4, x5, x6, x7, x8]
          options := o1 * 2 ^ 24 + o2 * 2 ^ 16 + o3 * 2 ^ 8 + o4
          data := rest
          timestamp := now
          source_address := "192.168.1.100"
          destination_address := "192.168.1.200" }
  | _ => Except.error .parseError

/-- `impl Message for EthernetIpPacket`: `to_common_format`. -/
def EthernetIpPacket.to_common_format (p : EthernetIpPacket) : CommonMessage :=
  let is_command : Bool :=
    match p.command with
    | .listIdentity | .listServices | .registerSession
    | .sendRRData | .dataRequest => true
    | _ => false
  let requires_response : Bool :=
    is_command &&
      !(match p.command with
        | .unregisterSession | .sendUnitData => true
        | _ => false)
  { source_protocol := .ethernetIp
    target_protocol := some .milStd1553
    priority := if is_command then 1 else 3
    payload := p.data
    metadata :=
      { source_address := p.source_address
        destination_address := p.destination_address
        timestamp := p.timestamp
        message_id := p.generate_message_id
        is_command := is_command
        requires_response := requires_response } }

/-- Well-formedness of an `EthernetIpPacket` as produced by the program:
the command is in canonical form (the `CommandType` enum cannot represent
`Custom(v)` for a recognized byte `v`), every machine-typed field is within
its Rust type's range, and the sender context holds 8 bytes. -/
def EthernetIpPacket.WF (p : EthernetIpPacket) : Prop :=
  CommandType.from_u8 p.command.as_u8 = p.command ∧
  p.command.as_u8 < 256 ∧
  p.session_handle < 2 ^ 32 ∧
  p.status < 2 ^ 32 ∧
  p.options < 2 ^ 32 ∧
  p.sender_context.length = 8 ∧
  (∀ b ∈ p.sender_context, b < 256) ∧
  (∀ b ∈ p.data, b < 256)

instance (p : EthernetIpPacket) : Decidable p.WF := by
  unfold EthernetIpPacket.WF; infer_instance

/-! ## Rust standard-library string parsing used by the gateway

`str::parse::<bool>` accepts exactly "true" and "false";
`str::parse::<u8>` accepts an optional leading '+' followed by one or
more ASCII digits whose value fits in a `u8`. -/

/-- `str::parse::<bool>`. -/
def rust_parse_bool (s : String) : Option Bool :=
  if s = "true" then some true
  else if s = "false" then some false
  else none

/-- Digit run of `str::parse::<u8>` after the optional sign. -/
def rust_parse_u8_digits (cs : List Char) : Option Nat :=
  if cs ≠ [] ∧ cs.all Char.isDigit then
    let v := cs.foldl (fun acc c => acc * 10 + (c.toNat - 48)) 0
    if v < 256 then some v else none
  else none

/-- `str::parse::<u8>` on a character list. -/
def rust_parse_u8_chars : List Char → Option Nat
  | '+' :: rest => rust_parse_u8_digits rest
  | cs => rust_parse_u8_digits cs

/-- `str::parse::<u8>`. -/
def rust_parse_u8 (s : String) : Option Nat :=
  rust_parse_u8_chars s.data

/-! ## MIL-STD-1553 codec (`src/protocols/mil_std_1553/`) -/

/-- `mil_std_1553/mod.rs`: `MessageType`. -/
inductive MessageType where
  | bcToRt
  | rtToBc
  | rtToRt
  | modeCode
deriving DecidableEq, Repr

/-- `mil_std_1553/mod.rs`: `Mil1553Message`.  `Word` is a 16-bit
quantity, modelled as `Nat`. -/
structure Mil1553Message where
  message_type : MessageType
  command_word : Nat
  status_word : Option Nat
  data_words : List Nat
  timestamp : Nat
  remote_terminal_address : Nat
  subaddress : Nat
  word_count : Nat
deriving DecidableEq, Repr

/-- `Mil1553Message::new`: derives the bitfields of the command word and
stamps the current wall time (`now`). -/
def Mil1553Message.mk_new (message_type : MessageType) (command_word : Nat)
    (status_word : Option Nat) (data_words : List Nat) (now : Nat) :
    Mil1553Message :=
  { message_type := message_type
    command_word := command_word
    status_word := status_word
    data_words := data_words
    timestamp := now
    remote_terminal_address := command_word / 2 ^ 11 % 32
    subaddress := command_word / 2 ^ 5 % 32
    word_count := command_word % 32 }

/-- `Mil1553Message::to_bytes`: command word, optional status word, then
each data word, all big-endian. -/
def Mil1553Message.to_bytes (m : Mil1553Message) : List Nat :=
  u16be m.command_word ++
  (match m.status_word with
   | some s => u16be s
   | none => []) ++
  m.data_words.flatMap u16be

/-- The data-word loop of `parse_mil_std_1553`: reads big-endian 16-bit
words while at least two bytes remain and fewer than 32 words were read. -/
def read_data_words : List Nat → Nat → List Nat
  | a :: b :: rest, fuel + 1 => (a * 256 + b) :: read_data_words rest fuel
  | _, _ => []

/-- The kind derivation of `parse_mil_std_1553`: mode code when the
subaddress field of the command word is zero, `BcToRt` when the
transmit/receive bit is zero, else `RtToBc`. -/
def mil1553_message_type (cw : Nat) : MessageType :=
  if cw / 2 ^ 5 % 32 = 0 then .modeCode
  else if cw / 2 ^ 10 % 2 = 0 then .bcToRt
  else .rtToBc

/-- `mil_std_1553/parser.rs`: `parse_mil_std_1553`.  Requires at least
two bytes; reads a status word only when the derived kind is `RtToBc`
and two further bytes are available. -/
def parse_mil_std_1553 (now : Nat) (data : List Nat) :
    Except GatewayError Mil1553Message :=
  match data with
  | b1 :: b2 :: rest =>
    let cw := b1 * 256 + b2
    let message_type := mil1553_message_type cw
    match rest with
    | s1 :: s2 :: rest2 =>
      if message_type = .rtToBc then
        Except.ok (Mil1553Message.mk_new message_type cw
          (some (s1 * 256 + s2)) (read_data_words rest2 32) now)
      else
        Except.ok (Mil1553Message.mk_new message_type cw
          none (read_data_words (s1 :: s2 :: rest2) 32) now)
    | rest =>
      Except.ok (Mil1553Message.mk_new message_type cw
        none (read_data_words rest 32) now)
  | _ => Except.error .parseError

/-- The data-word construction of `Mil1553Handler::format`:
`chunks_exact(2)` big-endian pairs, and a trailing odd byte becomes
`u16::from_be_bytes([byte, 0])`. -/
def payload_to_words : List Nat → List Nat
  | a :: b :: rest => (a * 256 + b) :: payload_to_words rest
  | [a] => [a * 256]
  | [] => []

/-- The destination RT address of `Mil1553Handler::format`:
`strip_prefix("RT")` then `parse::<u8>()`, defaulting to 1. -/
def format_rt_addr (dest : String) : Nat :=
  match dest.data with
  | 'R' :: 'T' :: rest => (rust_parse_u8_chars rest).getD 1
  | _ => 1

/-- `Mil1553Handler::format`, up to the final `to_bytes` call: the
`Mil1553Message` the formatter constructs from a `CommonMessage`.
The command-word shifts are on `u16`, hence the `% 2^16`; the bit fields
are combined with `|` (`Nat.lor`). -/
def mil1553_format_message (message : CommonMessage) (now : Nat) :
    Mil1553Message :=
  let rt_addr := format_rt_addr message.metadata.destination_address
  let subaddress := 1
  let data_words := payload_to_words message.payload
  let word_count := min data_words.length 32
  let t_r_bit : Nat :=
    match message.metadata.source_address.data with
    | 'R' :: 'T' :: _ => 1
    | _ => 0
  let command_word :=
    Nat.lor (Nat.lor (Nat.lor (rt_addr * 2 ^ 11 % 2 ^ 16) (t_r_bit * 2 ^ 10))
      (subaddress * 2 ^ 5)) word_count
  let message_type : MessageType := if t_r_bit = 1 then .rtToBc else .bcToRt
  Mil1553Message.mk_new message_type command_word none data_words now

/-- `Mil1553Handler::format`: serialized bytes of the formatted message. -/
def mil1553_format (message : CommonMessage) (now : Nat) : List Nat :=
  (mil1553_format_message message now).to_bytes

/-! ## Key store (`src/security/key_manager.rs`) -/

/-- `key_manager.rs`: `KeyType`. -/
inductive KeyType where
  | encryption
  | signing
  | verification
deriving DecidableEq, Repr

/-- `key_manager.rs`: `KeyMetadata` (times in seconds since epoch). -/
structure KeyMetadata where
  id : String
  key_type : KeyType
  created_at : Nat
  expires_at : Option Nat
  description : String
deriving DecidableEq, Repr

/-- `key_manager.rs`: `KeyEntry`. -/
structure KeyEntry where
  metadata : KeyMetadata
  key_data : List Nat
deriving DecidableEq, Repr

/-- The in-memory key map of `KeyManager` (a `HashMap<String, KeyEntry>`
behind a lock; lock failure is out of scope of these claims). -/
def KeyStore := String → Option KeyEntry

/-- The common shape of the three getters: look up the id, require the
stored type, and fail if the key expired (`now > expires_at`). -/
def get_key_of_type (store : KeyStore) (now : Nat) (id : String)
    (expected : KeyType) : Except GatewayError (List Nat) :=
  match store id with
  | none => Except.error .keyError
  | some entry =>
    if entry.metadata.key_type ≠ expected then Except.error .keyError
    else
      match entry.metadata.expires_at with
      | some expires_at =>
        if now > expires_at then Except.error .keyError
        else Except.ok entry.key_data
      | none => Except.ok entry.key_data

/-- `KeyManager::get_encryption_key`. -/
def get_encryption_key (store : KeyStore) (now : Nat) (id : String) :
    Except GatewayError (List Nat) :=
  get_key_of_type store now id .encryption

/-- `KeyManager::get_signing_key`. -/
def get_signing_key (store : KeyStore) (now : Nat) (id : String) :
    Except GatewayError (List Nat) :=
  get_key_of_type store now id .signing

/-- `KeyManager::get_verification_key`. -/
def get_verification_key (store : KeyStore) (now : Nat) (id : String) :
    Except GatewayError (List Nat) :=
  get_key_of_type store now id .verification

/-! ## Crypto primitives (`src/security/crypto.rs`) -/

/-- Modelled from the spec: the ChaCha20-Poly1305 AEAD and Ed25519
signature primitives come from external crates (`chacha20poly1305`,
`ed25519_dalek`), whose internals are not part of this repository's
sources.  They are modelled as an abstract implementation: `enc`
plaintext/key/nonce, `dec` ciphertext/nonce/key (`none` = tag failure),
`sign` message/seed, and `verify` message/signature/public-key.  The
size checks wrapped around them in `crypto.rs` are embedded below. -/
structure CryptoImpl where
  enc : List Nat → List Nat → List Nat → List Nat
  dec : List Nat → List Nat → List Nat → Option (List Nat)
  sign : List Nat → List Nat → List Nat
  verify : List Nat → List Nat → List Nat → Bool

/-- `crypto.rs`: `encrypt_message` with the per-call RNG nonce draw made
an explicit argument. -/
def encrypt_message (c : CryptoImpl) (nonce : List Nat)
    (plaintext key : List Nat) :
    Except GatewayError (List Nat × List Nat) :=
  if key.length ≠ 32 then Except.error .encryptionFailed
  else Except.ok (c.enc plaintext key nonce, nonce)

/-- `crypto.rs`: `decrypt_message`. -/
def decrypt_message (c : CryptoImpl)
    (ciphertext nonce key : List Nat) :
    Except GatewayError (List Nat) :=
  if key.length ≠ 32 then Except.error .decryptionFailed
  else if nonce.length ≠ 12 then Except.error .decryptionFailed
  else
    match c.dec ciphertext nonce key with
    | some plaintext => Except.ok plaintext
    | none => Except.error .decryptionFailed

/-- `crypto.rs`: `sign_message`. -/
def sign_message (c : CryptoImpl) (message private_key : List Nat) :
    Except GatewayError (List Nat) :=
  if private_key.length ≠ 32 then Except.error .authenticationFailed
  else Except.ok (c.sign message private_key)

/-- `crypto.rs`: `verify_signature`. -/
def verify_signature (c : CryptoImpl)
    (message signature_bytes public_key : List Nat) :
    Except GatewayError Unit :=
  if signature_bytes.length ≠ 64 then Except.error .authenticationFailed
  else if public_key.length ≠ 32 then Except.error .authenticationFailed
  else if c.verify message signature_bytes public_key then Except.ok ()
  else Except.error .authenticationFailed

/-! ## Security envelope (`src/security/mod.rs`) -/

/-- `security/mod.rs`: `SecurityMode`. -/
inductive SecurityMode where
  | none
  | signed
  | encrypted
  | encryptedAndSigned
deriving DecidableEq, Repr

/-- `security/mod.rs`: `SecurityHeader`. -/
structure SecurityHeader where
  version : Nat
  mode : SecurityMode
  key_id : String
  nonce : List Nat
  signature : Option (List Nat)
deriving DecidableEq, Repr

/-- `security/mod.rs`: `SecuredMessage`. -/
structure SecuredMessage where
  header : SecurityHeader
  payload : List Nat
  hmac : Option (List Nat)
deriving DecidableEq, Repr

/-- `SecurityService::secure_message`.  The key store, the wall clock and
the RNG nonce draw are explicit arguments.  Note that the signing modes
look the signing key up under `key_id` itself (no `-signing` suffix), and
`EncryptedAndSigned` additionally looks the encryption key up under the
same `key_id`. -/
def secure_message (c : CryptoImpl) (store : KeyStore) (now : Nat)
    (nonce : List Nat) (data : List Nat) (mode : SecurityMode)
    (key_id : String) : Except GatewayError SecuredMessage :=
  match mode with
  | .none =>
    Except.ok
      { header :=
          { version := 1, mode := mode, key_id := key_id,
            nonce := [], signature := none }
        payload := data
        hmac := none }
  | .signed => do
    let sk ← get_signing_key store now key_id
    let signature ← sign_message c data sk
    Except.ok
      { header :=
          { version := 1, mode := mode, key_id := key_id,
            nonce := [], signature := some signature }
        payload := data
        hmac := none }
  | .encrypted => do
    let ek ← get_encryption_key store now key_id
    let (ciphertext, n) ← encrypt_message c nonce data ek
    Except.ok
      { header :=
          { version := 1, mode := mode, key_id := key_id,
            nonce := n, signature := none }
        payload := ciphertext
        hmac := none }
  | .encryptedAndSigned => do
    let sk ← get_signing_key store now key_id
    let signature ← sign_message c data sk
    let ek ← get_encryption_key store now key_id
    let (ciphertext, n) ← encrypt_message c nonce data ek
    Except.ok
      { header :=
          { version := 1, mode := mode, key_id := key_id,
            nonce := n, signature := some signature }
        payload := ciphertext
        hmac := none }

/-- `SecurityService::extract_message`. -/
def extract_message (c : CryptoImpl) (store : KeyStore) (now : Nat)
    (secured : SecuredMessage) : Except GatewayError (List Nat) :=
  match secured.header.mode with
  | .none => Except.ok secured.payload
  | .signed =>
    match secured.header.signature with
    | none => Except.error .authenticationFailed
    | some signature => do
      let vk ← get_verification_key store now secured.header.key_id
      let _ ← verify_signature c secured.payload signature vk
      Except.ok secured.payload
  | .encrypted => do
    let ek ← get_encryption_key store now secured.header.key_id
    decrypt_message c secured.payload secured.header.nonce ek
  | .encryptedAndSigned => do
    let ek ← get_encryption_key store now secured.header.key_id
    let plaintext ← decrypt_message c secured.payload secured.header.nonce ek
    match secured.header.signature with
    | none => Except.error .authenticationFailed
    | some signature => do
      let vk ← get_verification_key store now secured.header.key_id
      let _ ← verify_signature c plaintext signature vk
      Except.ok plaintext

/-! ## Translation rules (`src/config/mod.rs`) -/

/-- `config/mod.rs`: `TransformType`.  The field map is modelled as an
association list (`HashMap<String, String>` in the source; only `get` is
used on it). -/
inductive TransformType where
  | fieldMap (map : List (String × String))
  | custom (module_name : String)
  | identity
deriving DecidableEq, Repr

/-- `config/mod.rs`: `TranslationRule`.  The filter map is modelled as an
association list; the router only iterates its entries conjunctively, so
iteration order does not affect the match result. -/
structure TranslationRule where
  name : String
  source : ProtocolType
  target : ProtocolType
  priority : Nat
  filter : List (String × String)
  transform : Option TransformType
  security_mode : SecurityMode
deriving DecidableEq, Repr

/-! ## Router (`src/gateway/router.rs`) -/

/-- One criterion of `Router::matches_filter`: the check performed for a
single `(key, value)` filter entry (`true` = does not reject). -/
def filter_criterion (message : CommonMessage) (kv : String × String) : Bool :=
  let key := kv.1
  let value := kv.2
  if key = "source_address" then
    if value ≠ "" ∧ message.metadata.source_address ≠ value then false else true
  else if key = "destination_address" then
    if value ≠ "" ∧ message.metadata.destination_address ≠ value then false
    else true
  else if key = "priority" then
    match rust_parse_u8 value with
    | some priority => if message.priority ≠ priority then false else true
    | none => true
  else if key = "is_command" then
    match rust_parse_bool value with
    | some is_command =>
      if message.metadata.is_command ≠ is_command then false else true
    | none => true
  else if key = "requires_response" then
    match rust_parse_bool value with
    | some requires_response =>
      if message.metadata.requires_response ≠ requires_response then false
      else true
    | none => true
  else true

/-- `Router::matches_filter`: an empty filter matches unconditionally,
otherwise every criterion must pass. -/
def matches_filter (message : CommonMessage) (rule : TranslationRule) : Bool :=
  if rule.filter.isEmpty then true
  else rule.filter.all (filter_criterion message)

/-- Comparison used by `Router::new`'s `sort_by_key(|idx| priority)`;
`mergeSort` is stable, like Rust's `sort_by_key`. -/
def rule_priority_le (a b : TranslationRule) : Bool :=
  a.priority ≤ b.priority

/-- The `rule_map` bucket for the exact key `(source, Some(target))`:
rules are pushed in construction order and the bucket is then sorted by
priority (stably, lowest first). -/
def exact_bucket (rules : List TranslationRule) (s t : ProtocolType) :
    List TranslationRule :=
  (rules.filter (fun r => decide (r.source = s ∧ r.target = t))).mergeSort
    rule_priority_le

/-- The `rule_map` bucket for the wildcard key `(source, None)`: every
rule with that source is pushed, then sorted by priority. -/
def wildcard_bucket (rules : List TranslationRule) (s : ProtocolType) :
    List TranslationRule :=
  (rules.filter (fun r => decide (r.source = s))).mergeSort rule_priority_le

/-- `Router::find_rule`: reject self-translation, then scan the exact
bucket in priority order for the first filter match, then the wildcard
bucket, and finally fail with no route. -/
def find_rule (rules : List TranslationRule) (message : CommonMessage) :
    Except GatewayError TranslationRule :=
  match message.target_protocol with
  | some target =>
    if target = message.source_protocol then Except.error .invalidRoute
    else
      match (exact_bucket rules message.source_protocol target).find?
          (matches_filter message) with
      | some rule => Except.ok rule
      | none =>
        match (wildcard_bucket rules message.source_protocol).find?
            (matches_filter message) with
        | some rule => Except.ok rule
        | none => Except.error .noRoute
  | none =>
    match (wildcard_bucket rules message.source_protocol).find?
        (matches_filter message) with
    | some rule => Except.ok rule
    | none => Except.error .noRoute

/-! ## Transformer (`src/gateway/transformer.rs`) -/

/-- The registered custom transform modules, keyed by name. -/
def TransformModules :=
  String → Option (CommonMessage → Except GatewayError CommonMessage)

/-- `Transformer::apply_field_map`: only the `priority` key is
recognized; an unparseable value or unknown key changes nothing. -/
def apply_field_map (message : CommonMessage)
    (map : List (String × String)) : CommonMessage :=
  match map.lookup "priority" with
  | some priority_str =>
    match rust_parse_u8 priority_str with
    | some priority => { message with priority := priority }
    | none => message
  | none => message

/-- `Transformer::transform`: clone the message, set the target protocol
to the rule's target, then apply the rule's transform (if any). -/
def transform (modules : TransformModules) (message : CommonMessage)
    (rule : TranslationRule) : Except GatewayError CommonMessage :=
  let transformed := { message with target_protocol := some rule.target }
  match rule.transform with
  | some (.fieldMap map) => Except.ok (apply_field_map transformed map)
  | some (.custom module_name) =>
    match modules module_name with
    | some module => module transformed
    | none => Except.error .noTransform
  | some .identity => Except.ok transformed
  | none => Except.ok transformed

/-! ## Concrete instances used by witnesses and counterexamples -/

/-- A sample metadata record (mirrors the repository's test fixtures). -/
def sample_metadata : MessageMetadata :=
  { source_address := "RT1"
    destination_address := "RT5"
    timestamp := 12345
    message_id := 67890
    is_command := true
    requires_response := true }

/-- A sample normalized message. -/
def sample_message (src : ProtocolType) (tgt : Option ProtocolType) :
    CommonMessage :=
  { source_protocol := src
    target_protocol := tgt
    priority := 3
    payload := [1, 2, 3, 4]
    metadata := sample_metadata }

/-- A rule factory mirroring the repository's test fixtures. -/
def sample_rule (name : String) (src tgt : ProtocolType) (priority : Nat) :
    TranslationRule :=
  { name := name
    source := src
    target := tgt
    priority := priority
    filter := []
    transform := some .identity
    security_mode := .encryptedAndSigned }

/-- A crypto instance for concrete evaluation (the properties proved with
it do not depend on any cryptographic behaviour). -/
def c1_crypto : CryptoImpl :=
  { enc := fun plaintext _ _ => plaintext
    dec := fun ciphertext _ _ => some ciphertext
    sign := fun _ _ => List.replicate 64 0
    verify := fun _ _ _ => true }

/-- A key store holding a single (unexpired, 32-byte) signing key under
the id "k", as `KeyManager::import_key` would store it. -/
def c1_store : KeyStore := fun id =>
  if id = "k" then
    some { metadata := { id := "k", key_type := .signing, created_at := 0,
                         expires_at := none,
                         description := "imported signing key" }
           key_data := List.replicate 32 0 }
  else none

/-- The secured message `secure_message` produces from plaintext
`[1, 2, 3]` in `Signed` mode with key id "k" over `c1_store`. -/
def c1_secured : SecuredMessage :=
  { header := { version := 1, mode := .signed, key_id := "k",
                nonce := [], signature := some (List.replicate 64 0) }
    payload := [1, 2, 3]
    hmac := none }

/-- A well-formed EtherNet/IP packet whose peer addresses differ from the
parser's placeholders. -/
def c2_packet : EthernetIpPacket :=
  { command := .sendRRData
    session_handle := 0x12345678
    status := 0
    sender_context := [1, 2, 3, 4, 5, 6, 7, 8]
    options := 0
    data := [0xDE, 0xAD, 0xBE, 0xEF]
    timestamp := 12345
    source_address := "10.0.0.1"
    destination_address := "10.0.0.2" }

/-- Two rules sharing (source, target) with priorities 10 and 1
(scenario S4). -/
def c3_rule_low : TranslationRule :=
  sample_rule "low-priority" .milStd1553 .ethernetIp 10

/-- The priority-1 rule of scenario S4. -/
def c3_rule_high : TranslationRule :=
  sample_rule "high-priority" .milStd1553 .ethernetIp 1

/-- Rule list with the lower-priority (numerically larger) rule first. -/
def c3_rules : List TranslationRule := [c3_rule_low, c3_rule_high]

/-- A message routed from the legacy bus to the IP protocol. -/
def c3_message : CommonMessage :=
  sample_message .milStd1553 (some .ethernetIp)

/-- The message `parse_mil_std_1553` produces from the two-byte input
`[0x04, 0x20]`: kind `RtToBc` with no status word. -/
def c5_message : Mil1553Message :=
  { message_type := .rtToBc
    command_word := 0x0420
    status_word := none
    data_words := []
    timestamp := 0
    remote_terminal_address := 0
    subaddress := 1
    word_count := 0 }

/-- The message `parse_mil_std_1553` produces from `[4, 32, 7, 9]`:
kind `RtToBc` with status word `0x0709`. -/
def c5_witness_message : Mil1553Message :=
  { message_type := .rtToBc
    command_word := 0x0420
    status_word := some 0x0709
    data_words := []
    timestamp := 0
    remote_terminal_address := 0
    subaddress := 1
    word_count := 0 }

/-- An encryption-key entry that expired at second 10. -/
def c7_entry : KeyEntry :=
  { metadata := { id := "old", key_type := .encryption, created_at := 0,
                  expires_at := some 10, description := "expired key" }
    key_data := List.replicate 32 0 }

/-- A key store holding only the expired entry under id "old". -/
def c7_store : KeyStore := fun id =>
  if id = "old" then some c7_entry else none

/-- A transform-module registry with no registered modules
(`Transformer::new`). -/
def no_modules : TransformModules := fun _ => none

/-- A rule whose filter holds a priority entry with an unparseable
value. -/
def c9_rule : TranslationRule :=
  { sample_rule "bad-filter" .milStd1553 .ethernetIp 5 with
    filter := [("priority", "abc")] }

/-- A message with a three-byte (odd-length) payload. -/
def c10_message : CommonMessage :=
  { sample_message .ethernetIp (some .milStd1553) with payload := [1, 2, 3] }

/-! ## Helper lemmas about `Except` and the key store -/

/-- Monadic bind on `Except` after a success. -/
@[simp] theorem except_bind_ok {ε α β : Type} (a : α)
    (f : α → Except ε β) : (Except.ok a >>= f) = f a := rfl

/-- Monadic bind on `Except` after a failure. -/
@[simp] theorem except_bind_error {ε α β : Type} (e : ε)
    (f : α → Except ε β) :
    ((Except.error e : Except ε α) >>= f) = Except.error e := rfl

/-- A successful typed fetch means the id is stored with that type. -/
theorem get_key_of_type_ok (store : KeyStore) (now : Nat) (id : String)
    (expected : KeyType) (data : List Nat)
    (h : get_key_of_type store now id expected = Except.ok data) :
    ∃ entry, store id = some entry ∧ entry.metadata.key_type = expected := by
  unfold get_key_of_type at h
  cases hs : store id with
  | none => rw [hs] at h; exact absurd h (by simp)
  | some entry =>
    rw [hs] at h
    by_cases ht : entry.metadata.key_type = expected
    · exact ⟨entry, rfl, ht⟩
    · simp [ht] at h

/-- A typed fetch of an id stored with a different type fails. -/
theorem get_key_of_type_wrong_type (store : KeyStore) (now : Nat)
    (id : String) (entry : KeyEntry) (expected : KeyType)
    (hs : store id = some entry)
    (ht : entry.metadata.key_type ≠ expected) :
    get_key_of_type store now id expected = Except.error .keyError := by
  unfold get_key_of_type
  rw [hs]
  simp [ht]

/-- A typed fetch of an expired entry fails, whatever its type. -/
theorem get_key_of_type_expired (store : KeyStore) (now : Nat) (id : String)
    (entry : KeyEntry) (expires_at : Nat) (expected : KeyType)
    (hs : store id = some entry)
    (he : entry.metadata.expires_at = some expires_at)
    (hlt : expires_at < now) :
    get_key_of_type store now id expected = Except.error .keyError := by
  unfold get_key_of_type
  rw [hs]
  by_cases ht : entry.metadata.key_type = expected
  · simp [ht, he, hlt]
  · simp [ht]

/-! ## Theorems about the security envelope (claim C1) -/

/-- Whenever a `Signed`-mode `secure_message` succeeds, the matching
`extract_message` necessarily fails: the service signed with the key
stored under `key_id` (so that entry's type is `Signing`), and extraction
demands a `Verification`-type entry under the *same* id. -/
theorem secure_signed_then_extract_fails (c : CryptoImpl) (store : KeyStore)
    (now : Nat) (nonce data : List Nat) (id : String) (sm : SecuredMessage)
    (h : secure_message c store now nonce data .signed id = Except.ok sm) :
    extract_message c store now sm = Except.error GatewayError.keyError := by
  unfold secure_message at h
  cases hsk : get_signing_key store now id with
  | error e => rw [hsk] at h; simp at h
  | ok sk =>
    rw [hsk] at h
    obtain ⟨entry, hentry, htype⟩ := get_key_of_type_ok store now id _ sk hsk
    by_cases hlen : sk.length = 32
    · have hsm : sm =
          { header := { version := 1, mode := .signed, key_id := id,
                        nonce := [], signature := some (c.sign data sk) }
            payload := data
            hmac := none } := by
        simp [sign_message, hlen] at h
        exact h.symm
      have hvk : get_verification_key store now id =
          Except.error GatewayError.keyError :=
        get_key_of_type_wrong_type store now id entry .verification hentry
          (by rw [htype]; intro hc; cases hc)
      rw [hsm]
      unfold extract_message
      simp [hvk]
    · simp [sign_message, hlen] at h

/-- `EncryptedAndSigned` securing can never succeed: it demands the entry
under `key_id` to be of type `Signing` (for the signature) and of type
`Encryption` (for the cipher) at once. -/
theorem secure_encrypted_and_signed_always_fails (c : CryptoImpl)
    (store : KeyStore) (now : Nat) (nonce data : List Nat) (id : String) :
    (secure_message c store now nonce data .encryptedAndSigned id).isOk =
      false := by
  unfold secure_message
  cases hsk : get_signing_key store now id with
  | error e => simp [Except.isOk, Except.toBool]
  | ok sk =>
    obtain ⟨entry, hentry, htype⟩ := get_key_of_type_ok store now id _ sk hsk
    have hek : get_encryption_key store now id =
        Except.error GatewayError.keyError :=
      get_key_of_type_wrong_type store now id entry .encryption hentry
        (by rw [htype]; intro hc; cases hc)
    by_cases hlen : sk.length = 32
    · simp [sign_message, hlen, hek, Except.isOk, Except.toBool]
    · simp [sign_message, hlen, Except.isOk, Except.toBool]

/-- C1: refuted on the code (code bug).  With an unexpired 32-byte
signing key imported under id "k" — the store state the `Signed` branch
of `secure_message` looks up — securing `[1, 2, 3]` succeeds, yet
`extract_message` on the very result fails with `KeyError`, because it
looks a `Verification`-type key up under the same id "k".  (In
`EncryptedAndSigned` mode, `secure_message` itself can never succeed;
see `secure_encrypted_and_signed_always_fails`.)  So the envelope
round-trip claimed for the signing modes never holds. -/
theorem c1_signed_envelope_roundtrip_impossible :
    secure_message c1_crypto c1_store 0 [] [1, 2, 3] .signed "k" =
      Except.ok c1_secured ∧
    extract_message c1_crypto c1_store 0 c1_secured =
      Except.error GatewayError.keyError := by
  constructor
  · decide
  · decide

/-! ## Theorems about the router (claims C4, C6 context) -/

/-- C4: a message whose target protocol equals its source protocol is
rejected with `InvalidRoute` before any rule lookup, whatever the rule
set. -/
theorem c4_find_rule_rejects_self_translation
    (rules : List TranslationRule) (message : CommonMessage)
    (p : ProtocolType) (ht : message.target_protocol = some p)
    (hp : p = message.source_protocol) :
    find_rule rules message = Except.error GatewayError.invalidRoute := by
  unfold find_rule
  rw [ht]
  simp [hp]

/-- Witness for C4: the self-translation message of scenario S3 is
rejected even though a matching rule exists. -/
theorem c4_find_rule_rejects_self_translation_witness :
    find_rule [sample_rule "eip-eip" .ethernetIp .ethernetIp 5]
        (sample_message .ethernetIp (some .ethernetIp)) =
      Except.error GatewayError.invalidRoute :=
  c4_find_rule_rejects_self_translation _ _ .ethernetIp rfl rfl

/-- C6: EtherNet/IP normalization sets `is_command` exactly for the five
command types, `requires_response` to `is_command` minus the two
fire-and-forget commands, and the priority to 1 for commands and 3
otherwise. -/
theorem c6_to_common_format_flags (p : EthernetIpPacket) :
    (p.to_common_format.metadata.is_command = true ↔
      p.command ∈ [CommandType.listIdentity, CommandType.listServices,
        CommandType.registerSession, CommandType.sendRRData,
        CommandType.dataRequest]) ∧
    (p.to_common_format.metadata.requires_response = true ↔
      (p.to_common_format.metadata.is_command = true ∧
        p.command ≠ CommandType.unregisterSession ∧
        p.command ≠ CommandType.sendUnitData)) ∧
    p.to_common_format.priority =
      (if p.to_common_format.metadata.is_command = true then 1 else 3) := by
  cases hc : p.command <;>
    simp [EthernetIpPacket.to_common_format, hc]

/-! ## Theorems about the key store (claim C7) -/

/-- C7: once an entry's expiry second lies strictly before the current
wall-clock second, every getter fails with `KeyError` and never returns
the key data. -/
theorem c7_expired_key_getters_fail (store : KeyStore) (now : Nat)
    (id : String) (entry : KeyEntry) (expires_at : Nat)
    (hs : store id = some entry)
    (he : entry.metadata.expires_at = some expires_at)
    (hlt : expires_at < now) :
    get_encryption_key store now id = Except.error GatewayError.keyError ∧
    get_signing_key store now id = Except.error GatewayError.keyError ∧
    get_verification_key store now id = Except.error GatewayError.keyError :=
  ⟨get_key_of_type_expired store now id entry expires_at _ hs he hlt,
   get_key_of_type_expired store now id entry expires_at _ hs he hlt,
   get_key_of_type_expired store now id entry expires_at _ hs he hlt⟩

/-- Witness for C7: the key that expired at second 10 is unavailable at
second 11. -/
theorem c7_expired_key_getters_fail_witness :
    get_encryption_key c7_store 11 "old" =
        Except.error GatewayError.keyError ∧
    get_signing_key c7_store 11 "old" =
        Except.error GatewayError.keyError ∧
    get_verification_key c7_store 11 "old" =
        Except.error GatewayError.keyError :=
  c7_expired_key_getters_fail c7_store 11 "old" c7_entry 10 (by decide)
    (by decide) (by decide)

/-! ## Theorems about the transformer (claim C8) -/

/-- C8: under an `Identity` transform the result equals the input except
that `target_protocol` becomes `Some(rule.target)`; payload, priority,
source protocol and the whole metadata record are untouched. -/
theorem c8_identity_transform_sets_target_only (modules : TransformModules)
    (message : CommonMessage) (rule : TranslationRule)
    (h : rule.transform = some TransformType.identity) :
    transform modules message rule =
      Except.ok { message with target_protocol := some rule.target } := by
  unfold transform
  rw [h]

/-- Witness for C8: the identity rule of the repository's fixtures. -/
theorem c8_identity_transform_sets_target_only_witness :
    transform no_modules (sample_message .milStd1553 none)
        (sample_rule "identity" .milStd1553 .ethernetIp 5) =
      Except.ok { sample_message .milStd1553 none with
                    target_protocol := some ProtocolType.ethernetIp } :=
  c8_identity_transform_sets_target_only no_modules _ _ rfl

/-! ## Theorems about the EtherNet/IP codec (claim C2) -/

/-- Counterexample for C2 as stated: parsing the serialization of a
well-formed packet does not return the packet itself — even when the
wall clock at parse time equals the packet's original timestamp, the
parser substitutes its placeholder peer addresses. -/
theorem c2_counterexample :
    parse_ethernet_ip 12345 c2_packet.to_bytes ≠ Except.ok c2_packet := by
  decide

/-- C2 (amended): for a well-formed packet, parsing the serialization
reproduces every wire-carried field — command, session handle, status,
sender context, options and payload — while the timestamp is freshly
stamped with the parse-time clock and the peer addresses are the
parser's placeholders. -/
theorem c2_parse_to_bytes_roundtrip (now : Nat) (p : EthernetIpPacket)
    (h : p.WF) :
    parse_ethernet_ip now p.to_bytes =
      Except.ok { p with timestamp := now,
                         source_address := "192.168.1.100",
                         destination_address := "192.168.1.200" } := by
  obtain ⟨hc, -, hs, hst, ho, hctx, -, -⟩ := h
  rcases hl : p.sender_context with
    _ | ⟨x1, _ | ⟨x2, _ | ⟨x3, _ | ⟨x4, _ | ⟨x5, _ | ⟨x6, _ | ⟨x7,
      _ | ⟨x8, _ | ⟨x9, tl⟩⟩⟩⟩⟩⟩⟩⟩⟩ <;>
    rw [hl] at hctx <;> simp only [List.length] at hctx <;> try omega
  simp only [EthernetIpPacket.to_bytes, u16be, u32be, hl,
    List.cons_append, List.nil_append]
  simp only [parse_ethernet_ip]
  simp only [Except.ok.injEq, EthernetIpPacket.mk.injEq]
  exact ⟨hc, by omega, by omega, trivial, by omega, trivial, trivial,
    trivial, trivial⟩

/-- Witness for C2 (amended): the round-trip of `c2_packet` at clock
999. -/
theorem c2_parse_to_bytes_roundtrip_witness :
    parse_ethernet_ip 999 c2_packet.to_bytes =
      Except.ok { c2_packet with
                    timestamp := 999,
                    source_address := "192.168.1.100",
                    destination_address := "192.168.1.200" } :=
  c2_parse_to_bytes_roundtrip 999 c2_packet (by decide)

/-! ## Theorems about the legacy-bus messages (claim C5) -/

/-- Counterexample for C5 as stated: the two-byte input `[0x04, 0x20]`
parses to a `TerminalToController` (`RtToBc`) message with no status
word, so "status_word present iff kind = TerminalToController" fails in
the only-if-sufficient direction. -/
theorem c5_counterexample :
    parse_mil_std_1553 0 [4, 32] = Except.ok c5_message ∧
    c5_message.message_type = MessageType.rtToBc ∧
    c5_message.status_word = none := by
  decide

/-- C5 (amended): in every message the program constructs, `status_word`
is present *only if* the kind is `RtToBc`; precisely, the parser sets it
exactly when the kind is `RtToBc` and at least two bytes follow the
command word, and the formatter never sets it. -/
theorem c5_status_word_only_if_rt_to_bc :
    (∀ now data message,
      parse_mil_std_1553 now data = Except.ok message →
      (message.status_word.isSome = true ↔
        (message.message_type = MessageType.rtToBc ∧ 4 ≤ data.length))) ∧
    (∀ message now, (mil1553_format_message message now).status_word = none) := by
  constructor
  · intro now data message hparse
    match data with
    | [] => simp [parse_mil_std_1553] at hparse
    | [b1] => simp [parse_mil_std_1553] at hparse
    | [b1, b2] =>
      simp only [parse_mil_std_1553] at hparse
      rw [Except.ok.injEq] at hparse
      subst hparse
      simp [Mil1553Message.mk_new]
    | [b1, b2, s1] =>
      simp only [parse_mil_std_1553] at hparse
      rw [Except.ok.injEq] at hparse
      subst hparse
      simp [Mil1553Message.mk_new]
    | b1 :: b2 :: s1 :: s2 :: rest2 =>
      simp only [parse_mil_std_1553] at hparse
      by_cases hmt : mil1553_message_type (b1 * 256 + b2) = MessageType.rtToBc
      · rw [if_pos hmt] at hparse
        rw [Except.ok.injEq] at hparse
        subst hparse
        simp [Mil1553Message.mk_new, hmt]
      · rw [if_neg hmt] at hparse
        rw [Except.ok.injEq] at hparse
        subst hparse
        simp [Mil1553Message.mk_new, hmt]
  · intro message now
    rfl

/-- Witness for C5 (amended): on the four-byte input `[4, 32, 7, 9]` the
parser produces an `RtToBc` message whose status word is present. -/
theorem c5_status_word_only_if_rt_to_bc_witness :
    c5_witness_message.status_word.isSome = true :=
  (c5_status_word_only_if_rt_to_bc.1 0 [4, 32, 7, 9] c5_witness_message
    (by decide)).mpr (by decide)

/-! ## Theorems about filter matching (claim C9) -/

/-- `matches_filter` is the conjunction of its criteria; the empty-filter
shortcut agrees with the vacuous conjunction. -/
theorem matches_filter_eq_all (message : CommonMessage)
    (rule : TranslationRule) :
    matches_filter message rule =
      rule.filter.all (filter_criterion message) := by
  unfold matches_filter
  cases h : rule.filter <;> simp [h]

/-- C9: a filter entry under `priority`, `is_command` or
`requires_response` whose value does not parse (as `u8` or `bool`
respectively) imposes no constraint: dropping the entry leaves the match
result unchanged for every message. -/
theorem c9_unparseable_filter_entry_ignored (message : CommonMessage)
    (rule : TranslationRule) (f1 f2 : List (String × String)) (k v : String)
    (hk : (k = "priority" ∧ rust_parse_u8 v = none) ∨
          (k = "is_command" ∧ rust_parse_bool v = none) ∨
          (k = "requires_response" ∧ rust_parse_bool v = none))
    (hf : rule.filter = f1 ++ (k, v) :: f2) :
    matches_filter message rule =
      matches_filter message { rule with filter := f1 ++ f2 } := by
  have hcrit : filter_criterion message (k, v) = true := by
    rcases hk with ⟨hk, hv⟩ | ⟨hk, hv⟩ | ⟨hk, hv⟩ <;> subst hk <;>
      simp [filter_criterion, hv]
  rw [matches_filter_eq_all, matches_filter_eq_all]
  simp only [hf]
  simp [List.all_append, hcrit]

/-- Witness for C9: the unparseable priority filter value "abc" does not
prevent the rule from matching. -/
theorem c9_unparseable_filter_entry_ignored_witness :
    matches_filter (sample_message .milStd1553 (some .ethernetIp)) c9_rule =
      matches_filter (sample_message .milStd1553 (some .ethernetIp))
        { c9_rule with filter := [] } :=
  c9_unparseable_filter_entry_ignored _ c9_rule [] [] "priority" "abc"
    (Or.inl ⟨rfl, by decide⟩) rfl

/-! ## Theorems about the legacy-bus formatter padding (claim C10) -/

/-- `payload_to_words` never returns an empty word list on a non-empty
payload. -/
theorem payload_to_words_ne_nil (a : Nat) (l : List Nat) :
    payload_to_words (a :: l) ≠ [] := by
  cases l <;> simp [payload_to_words]

/-- Serializing the formatter's data words of an odd-length byte payload
yields the payload followed by a single zero pad byte. -/
theorem payload_to_words_bytes (l : List Nat) (h256 : ∀ b ∈ l, b < 256)
    (hodd : l.length % 2 = 1) :
    (payload_to_words l).flatMap u16be = l ++ [0] := by
  induction l using payload_to_words.induct with
  | case1 a b rest ih =>
    have ha : a < 256 := h256 a (by simp)
    have hb : b < 256 := h256 b (by simp)
    have hrest : ∀ x ∈ rest, x < 256 := fun x hx => h256 x (by simp [hx])
    have hlen : rest.length % 2 = 1 := by
      simp only [List.length_cons] at hodd; omega
    have h1 : (a * 256 + b) / 256 % 256 = a := by omega
    have h2 : (a * 256 + b) % 256 = b := by omega
    simp only [payload_to_words, List.flatMap_cons, u16be]
    rw [ih hrest hlen]
    simp [h1, h2]
  | case2 a =>
    have ha : a < 256 := h256 a (by simp)
    have h1 : a * 256 / 256 % 256 = a := by omega
    have h2 : a * 256 % 256 = 0 := by omega
    simp [payload_to_words, u16be, h1, h2, ha]
  | case3 => simp at hodd

/-- On an odd-length payload the word list covers the payload length
rounded up to the next even byte count. -/
theorem payload_to_words_length (l : List Nat) (hodd : l.length % 2 = 1) :
    2 * (payload_to_words l).length = l.length + 1 := by
  induction l using payload_to_words.induct with
  | case1 a b rest ih =>
    have hlen : rest.length % 2 = 1 := by
      simp only [List.length_cons] at hodd; omega
    simp only [payload_to_words, List.length_cons]
    rw [Nat.mul_add, ih hlen]
  | case2 a => simp [payload_to_words]
  | case3 => simp at hodd

/-- On an odd-length payload the final data word is the leftover byte
shifted into the high half with a zero low byte. -/
theorem payload_to_words_getLast (l : List Nat) (hodd : l.length % 2 = 1) :
    (payload_to_words l).getLast? = some (l.getLast?.getD 0 * 256) := by
  induction l using payload_to_words.induct with
  | case1 a b rest ih =>
    rcases rest with _ | ⟨c, rest2⟩
    · simp at hodd
    · have hlen : (c :: rest2).length % 2 = 1 := by
        simp only [List.length_cons] at hodd ⊢; omega
      rcases hw : payload_to_words (c :: rest2) with _ | ⟨w, ws⟩
      · exact absurd hw (payload_to_words_ne_nil c rest2)
      · simp only [payload_to_words, hw, List.getLast?_cons_cons]
        rw [← hw, ih hlen]
  | case2 a => simp [payload_to_words]
  | case3 => simp at hodd

/-- C10: the formatter's data words on an odd-length payload are the
payload pairs plus one final word `[leftover, 0]`; their serialization is
the payload padded with one zero byte, i.e. the payload length rounded up
to the next even number of bytes. -/
theorem c10_odd_payload_padded (message : CommonMessage) (now : Nat)
    (h256 : ∀ b ∈ message.payload, b < 256)
    (hodd : message.payload.length % 2 = 1) :
    (mil1553_format_message message now).data_words =
        payload_to_words message.payload ∧
    (payload_to_words message.payload).getLast? =
        some (message.payload.getLast?.getD 0 * 256) ∧
    (payload_to_words message.payload).flatMap u16be =
        message.payload ++ [0] ∧
    2 * (payload_to_words message.payload).length =
        message.payload.length + 1 :=
  ⟨rfl, payload_to_words_getLast _ hodd,
   payload_to_words_bytes _ h256 hodd, payload_to_words_length _ hodd⟩

/-- Witness for C10: the payload `[1, 2, 3]` becomes the two words
`0x0102` and `0x0300`. -/
theorem c10_odd_payload_padded_witness :
    (mil1553_format_message c10_message 0).data_words = [258, 768] :=
  ((c10_odd_payload_padded c10_message 0 (by decide) (by decide)).1).trans
    (by decide)

/-! ## Theorems about rule selection order (claim C3) -/

/-- The priority-sorted buckets are pairwise ordered by priority. -/
theorem sorted_bucket (l : List TranslationRule) :
    List.Pairwise (fun a b : TranslationRule => a.priority ≤ b.priority)
      (l.mergeSort rule_priority_le) := by
  have htrans : ∀ a b c : TranslationRule, rule_priority_le a b = true →
      rule_priority_le b c = true → rule_priority_le a c = true := by
    intro a b c hab hbc
    simp only [rule_priority_le, decide_eq_true_eq] at hab hbc ⊢
    omega
  have htotal : ∀ a b : TranslationRule,
      (rule_priority_le a b || rule_priority_le b a) = true := by
    intro a b
    simp only [rule_priority_le, Bool.or_eq_true, decide_eq_true_eq]
    omega
  have h := @List.sorted_mergeSort TranslationRule rule_priority_le
    htrans htotal l
  exact h.imp (fun hab => by
    simpa only [rule_priority_le, decide_eq_true_eq] using hab)

/-- In a priority-sorted list, `find?` returns a rule of minimal priority
among those satisfying the predicate. -/
theorem find?_min_of_sorted (p : TranslationRule → Bool)
    (l : List TranslationRule)
    (hs : List.Pairwise
      (fun a b : TranslationRule => a.priority ≤ b.priority) l)
    (r : TranslationRule) (hfind : l.find? p = some r) :
    ∀ x ∈ l, p x = true → r.priority ≤ x.priority := by
  induction l with
  | nil => simp at hfind
  | cons head tail ih =>
    rcases List.pairwise_cons.mp hs with ⟨hhead, htail⟩
    by_cases hp : p head = true
    · rw [List.find?_cons_of_pos _ hp] at hfind
      cases hfind
      intro x hx hpx
      rcases List.mem_cons.mp hx with rfl | hx
      · exact le_refl _
      · exact hhead x hx
    · rw [List.find?_cons_of_neg _ hp] at hfind
      intro x hx hpx
      rcases List.mem_cons.mp hx with rfl | hx
      · exact absurd hpx hp
      · exact ih htail hfind x hx hpx

/-- Membership in the exact bucket is membership in the rule list with
the matching source and target. -/
theorem mem_exact_bucket_iff (rules : List TranslationRule)
    (s t : ProtocolType) (r : TranslationRule) :
    r ∈ exact_bucket rules s t ↔
      (r ∈ rules ∧ r.source = s ∧ r.target = t) := by
  unfold exact_bucket
  rw [List.Perm.mem_iff (List.mergeSort_perm _ _)]
  simp [List.mem_filter, and_assoc]

/-- C3: when the message names a distinct target and some rule with the
message's (source, target) pair matches its filter, `find_rule` succeeds
and returns a matching rule of numerically minimal priority among all
matching rules with that pair — for every construction-time rule order. -/
theorem c3_find_rule_min_priority (rules : List TranslationRule)
    (message : CommonMessage) (target : ProtocolType)
    (ht : message.target_protocol = some target)
    (hne : target ≠ message.source_protocol)
    (r₀ : TranslationRule) (hr₀ : r₀ ∈ rules)
    (hs₀ : r₀.source = message.source_protocol)
    (ht₀ : r₀.target = target)
    (hm₀ : matches_filter message r₀ = true) :
    ∃ rule, find_rule rules message = Except.ok rule ∧
      rule ∈ rules ∧ rule.source = message.source_protocol ∧
      rule.target = target ∧ matches_filter message rule = true ∧
      ∀ r ∈ rules, r.source = message.source_protocol → r.target = target →
        matches_filter message r = true → rule.priority ≤ r.priority := by
  have hr₀b : r₀ ∈ exact_bucket rules message.source_protocol target :=
    (mem_exact_bucket_iff rules message.source_protocol target r₀).mpr
      ⟨hr₀, hs₀, ht₀⟩
  cases hfind : (exact_bucket rules message.source_protocol target).find?
      (matches_filter message) with
  | none =>
    exact absurd hm₀ (List.find?_eq_none.mp hfind r₀ hr₀b)
  | some rule =>
    have hmem := List.mem_of_find?_eq_some hfind
    have hmatch := List.find?_some hfind
    obtain ⟨hmem', hsr, htr⟩ :=
      (mem_exact_bucket_iff rules message.source_protocol target rule).mp hmem
    refine ⟨rule, ?_, hmem', hsr, htr, hmatch, ?_⟩
    · simp only [find_rule, ht]
      rw [if_neg hne, hfind]
    · intro r hr hsrc htgt hm
      exact find?_min_of_sorted (matches_filter message) _
        (sorted_bucket _) rule hfind r
        ((mem_exact_bucket_iff rules message.source_protocol target r).mpr
          ⟨hr, hsrc, htgt⟩) hm

/-- Witness for C3: scenario S4's rule pair (priorities 10 and 1, the
priority-10 rule listed first) routes successfully. -/
theorem c3_find_rule_min_priority_witness :
    (find_rule c3_rules c3_message).isOk = true := by
  obtain ⟨rule, hrule, -⟩ := c3_find_rule_min_priority c3_rules c3_message
    .ethernetIp rfl (by decide) c3_rule_high (by decide) rfl rfl (by decide)
  rw [hrule]
  rfl

end SecureGateway
